import Mathlib

/-!
Verification development for the PBSM distributed-shared-memory runtime.

This file gives a shallow embedding of the coherence protocol
(src/include/policy.hpp, src/src/policy.cpp), the communication layer
(src/include/communication_handler.hpp, src/src/communication_handler.cpp)
and the start-up code (src/include/pbsm.hpp), and proves properties of the
embedded definitions.

Modelling conventions:
- machine integers are Nat; the 64-bit decrement on the atomic counters is
  modelled with an explicit wrap modulo 2 ^ 64 (semaphore_dec);
- a send is modelled by the list of (destination, message) pairs emitted;
- blocking on a condition variable is modelled by recording which wait
  channel the operation blocks on, together with the state assignment the
  source performs after the wait returns;
- the registry entry of one variable is passed explicitly as an
  Option var_data (none models a missing dictionary_ entry, i.e. nullptr).
-/

namespace PBSM

/-- Possible states of a shared variable (enum class state in policy.hpp).
The spec names them OWNER_EXCLUSIVE, OWNER_SHARED, REMOTE_CACHED and
REMOTE_STALE respectively. -/
inductive state where
  | OWNER_NO_SHARED
  | OWNER_SHARED
  | REMOTE_OWNER_CACHED
  | REMOTE_OWNER_NO_CACHED
deriving DecidableEq

/-- Message types (enum class msg_type_t in messages.hpp). -/
inductive msg_type_t where
  | MSG_REQUEST_OWNERSHIP
  | MSG_GRANT_OWNERSHIP
  | MSG_SET_NEW_OWNER
  | MSG_ASK_CURRENT_VALUE
  | MSG_SET_NEW_VALUE
  | MSG_BARRIER_BLOCK
  | MSG_BARRIER_UNBLOCK
  | MSG_INVALIDATE_COPY
  | MSG_INVALIDATE_COPY_ACK
deriving DecidableEq

/-- Wire message (struct msg_t in messages.hpp). The data field models the
union holding either a node id or a variable size. -/
structure msg_t where
  type : msg_type_t
  id : Nat
  data : Nat
deriving DecidableEq

/-- Condition variables a thread can wait on or signal (policy.hpp /
policy.cpp). wait_condition_ s is the per-entry condition of the master
barrier semaphore for barrier id s. -/
inductive wait_channel where
  | wait_value_updated_
  | waiting_ownership_grant_
  | waiting_invalidate_copies_
  | slave_wait_barrier_
  | wait_condition_ (s : Nat)
deriving DecidableEq

/-- Registry record of one shared variable: the bytes held by the
AbstractShared value (value_) together with the policy_data_ fields of
struct var_data in policy.hpp. invalidate_counter_ is
waiting_invalidate_copies_.counter_. -/
structure var_data where
  value_ : List Nat
  state_ : state
  remote_owner_ : Nat
  invalidate_counter_ : Nat
deriving DecidableEq

/-- Decrement of an atomic unsigned 64-bit counter (std::atomic_ulong
operator--): subtraction with wrap-around modulo 2 ^ 64. -/
def semaphore_dec (c : Nat) : Nat :=
  (c + (2 ^ 64 - 1)) % 2 ^ 64

/-- CommunicationHandler::send_to: emits one message to dest, or nothing
when dest is the sending node itself (the source logs and drops). -/
def send_to (self : Nat) (m : msg_t) (dest : Nat) : List (Nat × msg_t) :=
  if dest = self then [] else [(dest, m)]

/-- CommunicationHandler::send_to_all: emits the message to every node
except the sending node itself, in node order. -/
def send_to_all (self N : Nat) (m : msg_t) : List (Nat × msg_t) :=
  ((List.range N).filter (fun i => decide (i ≠ self))).map (fun i => (i, m))

/-- CommunicationHandler::send_two_messages_to: header plus value payload to
one destination under one channel lock; nothing when dest is self. -/
def send_two_messages_to (self : Nat) (m : msg_t) (val : List Nat) (dest : Nat) :
    List (Nat × msg_t) × List (Nat × List Nat) :=
  if dest = self then ([], []) else ([(dest, m)], [(dest, val)])

/-- Policy::send_request_ownership: builds MSG_REQUEST_OWNERSHIP with
data.node = pbsm_tid and id = the variable id, and passes it to
send_to_all (the implementation broadcasts, although its own doc comment
says it sends to the current owner). -/
def send_request_ownership (self N : Nat) (var_id : Nat) : List (Nat × msg_t) :=
  send_to_all self N ⟨msg_type_t.MSG_REQUEST_OWNERSHIP, var_id, self⟩

/-- Policy::requestCurrentValue: sends MSG_ASK_CURRENT_VALUE to the node
recorded in remote_owner_. -/
def requestCurrentValue (self : Nat) (v : var_data) (var_id : Nat) : List (Nat × msg_t) :=
  send_to self ⟨msg_type_t.MSG_ASK_CURRENT_VALUE, var_id, self⟩ v.remote_owner_

/-- Observable effect of Policy::before_local_read: messages sent, the
channel the caller blocks on (none when it returns immediately), and the
state assignment performed after the wait returns (none when no
assignment happens). -/
structure read_effect where
  sent : List (Nat × msg_t)
  blocked_on : Option wait_channel
  state_after : Option state
deriving DecidableEq

/-- Policy::before_local_read: only when the state is
REMOTE_OWNER_NO_CACHED it requests the current value from remote_owner_,
blocks on wait_value_updated_, and on wake assigns REMOTE_OWNER_CACHED;
in every other state (or for an unknown variable) it does nothing. -/
def before_local_read (self : Nat) (var_id : Nat) (reg : Option var_data) : read_effect :=
  match reg with
  | none => ⟨[], none, none⟩
  | some v =>
    if v.state_ = state.REMOTE_OWNER_NO_CACHED then
      ⟨requestCurrentValue self v var_id, some wait_channel.wait_value_updated_,
       some state.REMOTE_OWNER_CACHED⟩
    else ⟨[], none, none⟩

/-- Observable effect of Policy::before_local_write: messages sent before
blocking, the channel blocked on, the value assigned to
waiting_invalidate_copies_.counter_ before blocking (none when the counter
is not touched), the state assigned after the wait returns, and the bool
return value. -/
structure write_effect where
  sent : List (Nat × msg_t)
  blocked_on : Option wait_channel
  counter_set : Option Nat
  state_after : Option state
  ok : Bool
deriving DecidableEq

/-- Policy::before_local_write. In the two REMOTE_OWNER states it calls
send_request_ownership, blocks on waiting_ownership_grant_ and assigns
OWNER_NO_SHARED on wake; in OWNER_SHARED it broadcasts
MSG_INVALIDATE_COPY, sets the counter to N - 1, blocks on
waiting_invalidate_copies_ and assigns OWNER_NO_SHARED on wake; in
OWNER_NO_SHARED it is a no-op; for an unknown variable it returns false. -/
def before_local_write (self N : Nat) (var_id : Nat) (reg : Option var_data) : write_effect :=
  match reg with
  | none => ⟨[], none, none, none, false⟩
  | some v =>
    if v.state_ = state.REMOTE_OWNER_NO_CACHED ∨ v.state_ = state.REMOTE_OWNER_CACHED then
      ⟨send_request_ownership self N var_id,
       some wait_channel.waiting_ownership_grant_,
       none,
       some state.OWNER_NO_SHARED,
       true⟩
    else if v.state_ = state.OWNER_SHARED then
      ⟨send_to_all self N ⟨msg_type_t.MSG_INVALIDATE_COPY, var_id, self⟩,
       some wait_channel.waiting_invalidate_copies_,
       some (N - 1),
       some state.OWNER_NO_SHARED,
       true⟩
    else ⟨[], none, none, none, true⟩

/-- Observable effect of one iteration of Policy::receive_messages on one
incoming message: the variable record after the handler ran (none when it
was absent), the header messages and value payloads sent, the condition
variables notified, the master barrier table after the handler ran, the
channel the handler blocked on (no branch of the source handler ever
waits, so this is always none; the field makes that statable), and
whether the branch taken logs with ERROR on a registry miss or a wrong
role (network-failure logs are outside this model, which assumes every
send succeeds). -/
structure recv_effect where
  reg_after : Option var_data
  sent : List (Nat × msg_t)
  sent_value : List (Nat × List Nat)
  signaled : List wait_channel
  table_after : List (Nat × Nat)
  blocked_on : Option wait_channel
  logged_error : Bool
deriving DecidableEq

/-- One iteration of Policy::receive_messages (policy.cpp) for message m,
running on node self out of N nodes. payload holds the var_size bytes
read from the same channel when m is MSG_SET_NEW_VALUE. reg is the
dictionary_ entry for m.id; table is master_waiting_barrier_grants_,
as an association list from barrier id to the semaphore counter. -/
def receive_step (self N : Nat) (m : msg_t) (payload : List Nat)
    (reg : Option var_data) (table : List (Nat × Nat)) : recv_effect :=
  match m.type with
  | msg_type_t.MSG_REQUEST_OWNERSHIP =>
    match reg with
    | none => ⟨none, [], [], [], table, none, false⟩
    | some v =>
      if v.state_ = state.OWNER_NO_SHARED ∨ v.state_ = state.OWNER_SHARED then
        ⟨some { v with state_ := state.REMOTE_OWNER_NO_CACHED, remote_owner_ := m.data },
         send_to self ⟨msg_type_t.MSG_GRANT_OWNERSHIP, m.id, self⟩ m.data,
         [], [], table, none, false⟩
      else
        ⟨some v,
         send_to self ⟨msg_type_t.MSG_SET_NEW_OWNER, m.id, v.remote_owner_⟩ m.data,
         [], [], table, none, false⟩
  | msg_type_t.MSG_GRANT_OWNERSHIP =>
    match reg with
    | none => ⟨none, [], [], [], table, none, true⟩
    | some v => ⟨some v, [], [], [wait_channel.waiting_ownership_grant_], table, none, false⟩
  | msg_type_t.MSG_ASK_CURRENT_VALUE =>
    match reg with
    | none => ⟨none, [], [], [], table, none, true⟩
    | some v =>
      if v.state_ = state.REMOTE_OWNER_CACHED ∨ v.state_ = state.REMOTE_OWNER_NO_CACHED then
        ⟨some v,
         send_to self ⟨msg_type_t.MSG_SET_NEW_OWNER, m.id, v.remote_owner_⟩ m.data,
         [], [], table, none, false⟩
      else
        let two := send_two_messages_to self
          ⟨msg_type_t.MSG_SET_NEW_VALUE, m.id, v.value_.length⟩ v.value_ m.data
        ⟨some { v with state_ := state.OWNER_SHARED },
         two.1, two.2, [], table, none, false⟩
  | msg_type_t.MSG_SET_NEW_VALUE =>
    match reg with
    | none => ⟨none, [], [], [], table, none, true⟩
    | some v =>
      ⟨some { v with value_ := payload }, [], [],
       [wait_channel.wait_value_updated_], table, none, false⟩
  | msg_type_t.MSG_BARRIER_BLOCK =>
    let c1 := semaphore_dec ((table.lookup m.id).getD N)
    ⟨reg, [], [],
     if c1 = 0 then [wait_channel.wait_condition_ m.id] else [],
     (m.id, c1) :: table.filter (fun p => decide (p.1 ≠ m.id)),
     none, decide (self ≠ 0)⟩
  | msg_type_t.MSG_BARRIER_UNBLOCK =>
    ⟨reg, [], [], [wait_channel.slave_wait_barrier_], table, none, decide (self = 0)⟩
  | msg_type_t.MSG_SET_NEW_OWNER =>
    match reg with
    | none => ⟨none, [], [], [], table, none, false⟩
    | some v =>
      ⟨some { v with state_ := state.REMOTE_OWNER_NO_CACHED, remote_owner_ := m.data },
       send_request_ownership self N m.id,
       [], [], table, none, false⟩
  | msg_type_t.MSG_INVALIDATE_COPY =>
    ⟨(match reg with
      | none => none
      | some v => some { v with state_ := state.REMOTE_OWNER_NO_CACHED }),
     send_to self ⟨msg_type_t.MSG_INVALIDATE_COPY_ACK, m.id, self⟩ m.data,
     [], [], table, none, false⟩
  | msg_type_t.MSG_INVALIDATE_COPY_ACK =>
    match reg with
    | none => ⟨none, [], [], [], table, none, false⟩
    | some v =>
      let c := semaphore_dec v.invalidate_counter_
      ⟨some { v with invalidate_counter_ := c }, [], [],
       if c = 0 then [wait_channel.waiting_invalidate_copies_] else [],
       table, none, false⟩

/-- Iterates the MSG_INVALIDATE_COPY_ACK handler k times on one variable
record. For each ack it records whether that handler run notified
waiting_invalidate_copies_. -/
def run_invalidate_acks (self N id : Nat) : Nat → var_data → var_data × List Bool
  | 0, v => (v, [])
  | Nat.succ k, v =>
    let e := receive_step self N ⟨msg_type_t.MSG_INVALIDATE_COPY_ACK, id, 0⟩ [] (some v) []
    let v2 := e.reg_after.getD v
    let r := run_invalidate_acks self N id k v2
    (r.1, decide (wait_channel.waiting_invalidate_copies_ ∈ e.signaled) :: r.2)

/-- Observable effect of entering a barrier: messages sent, whether the
calling thread blocked on a condition variable, and the master barrier
table afterwards. -/
structure barrier_effect where
  sent : List (Nat × msg_t)
  blocked : Bool
  table_after : List (Nat × Nat)
deriving DecidableEq

/-- Policy::thread_wait_master_barrier: looks up (or lazily creates with
counter N) the semaphore for barrier s, decrements it, waits on its
condition exactly when the counter is still positive, then deletes the
entry and broadcasts MSG_BARRIER_UNBLOCK to every other node. The
uninitialised data field of the broadcast message is modelled as 0. -/
def thread_wait_master_barrier (N : Nat) (table : List (Nat × Nat)) (s : Nat) : barrier_effect :=
  let c1 := semaphore_dec ((table.lookup s).getD N)
  ⟨send_to_all 0 N ⟨msg_type_t.MSG_BARRIER_UNBLOCK, s, 0⟩,
   decide (0 < c1),
   table.filter (fun p => decide (p.1 ≠ s))⟩

/-- Policy::thread_wait_slave_barrier: sends MSG_BARRIER_BLOCK to node 0
and blocks on slave_wait_barrier_; the master barrier table is untouched. -/
def thread_wait_slave_barrier (self : Nat) (table : List (Nat × Nat)) (s : Nat) : barrier_effect :=
  ⟨send_to self ⟨msg_type_t.MSG_BARRIER_BLOCK, s, 0⟩ 0, true, table⟩

/-- Policy::thread_wait_barrier: master path on node 0, slave path
elsewhere. -/
def thread_wait_barrier (self N : Nat) (table : List (Nat × Nat)) (s : Nat) : barrier_effect :=
  if self = 0 then thread_wait_master_barrier N table s
  else thread_wait_slave_barrier self table s

/-- Upper bound on nodes read from the config file
(communication_handler.hpp). -/
def MAX_NUMBER_OF_NODES : Nat := 100

/-- Base offset for UDP ports (communication_handler.hpp,
network_port_offset). -/
def network_port_offset : Nat := 2000

/-- One entry of the connections_ array: the configured peer address (an
opaque token) and the two ports filled in by the constructor. -/
structure connection where
  ip : Nat
  recv_port : Nat
  send_port : Nat
deriving DecidableEq

/-- Port assignment done by the CommunicationHandler constructor for the
entry at index i on node self: recv_port = network_port_offset + i and
send_port = network_port_offset + pbsm_tid. -/
def make_connection_entry (self i : Nat) (addr : Nat) : connection :=
  ⟨addr, network_port_offset + i, network_port_offset + self⟩

/-- Config-reading loop of the CommunicationHandler constructor, with the
config file as the list of address tokens it yields and n the running
value of number_of_nodes_. Returns the final number_of_nodes_, the
connection entries filled in, and whether the maximum-number-of-nodes
warning fired. -/
def read_config (self : Nat) : List Nat → Nat → Nat × List connection × Bool
  | [], n => (n, [], false)
  | addr :: rest, n =>
    let entry := make_connection_entry self n addr
    if n + 1 = MAX_NUMBER_OF_NODES then (n + 1, [entry], true)
    else
      let r := read_config self rest (n + 1)
      (r.1, entry :: r.2.1, r.2.2)

/-- CommunicationHandler::CommunicationHandler on node self: runs the
config-reading loop starting from number_of_nodes_ = 0. -/
def communication_handler_init (self : Nat) (config : List Nat) : Nat × List connection × Bool :=
  read_config self config 0

/-- CommunicationHandler::start_recv_server: binds the entry's receive
socket to INADDR_ANY at the entry's recv_port; returns the bound port. -/
def start_recv_server (c : connection) : Nat :=
  c.recv_port

/-- CommunicationHandler::start_send_client: connects the entry's send
socket. The port is the entry's send_port; the destination address is
left as 0 (0.0.0.0) because the source fills serv_addr.sin_addr with
memcpy arguments in the wrong order (it copies the zeroed sin_addr into
the local addr variable instead of the converse), so the configured peer
address in connection.ip is never installed. -/
def start_send_client (c : connection) : Nat × Nat :=
  (0, c.send_port)

/-- Result of pbsm_init (pbsm.hpp): either the process exits with a code,
or start-up proceeds with the given pbsm_tid, recording whether the node
initialises as master. -/
inductive init_outcome where
  | exited (code : Int)
  | started (tid : Int) (is_master : Bool)
deriving DecidableEq

/-- Digit-accumulating loop of C atoi on ASCII codes. -/
def atoi_digits : List Nat → Int → Int
  | [], acc => acc
  | c :: cs, acc =>
    if 48 ≤ c ∧ c ≤ 57 then atoi_digits cs (acc * 10 + ((c : Int) - 48))
    else acc

/-- Whitespace skipping of C atoi on ASCII codes (space and the five
control whitespace characters). -/
def atoi_skip_ws : List Nat → List Nat
  | [] => []
  | c :: cs => if c = 32 ∨ (9 ≤ c ∧ c ≤ 13) then atoi_skip_ws cs else c :: cs

/-- C atoi on a string given as its list of ASCII codes: skip whitespace,
consume an optional sign, then accumulate leading digits; yields 0 when
no digits are present. -/
def atoi (s : List Nat) : Int :=
  match atoi_skip_ws s with
  | 45 :: rest => - atoi_digits rest 0
  | 43 :: rest => atoi_digits rest 0
  | rest => atoi_digits rest 0

/-- pbsm_init (pbsm.hpp) on the argument vector (each argument as its
ASCII codes, argv.length playing argc): exits with -1 when argc is not 2,
otherwise sets pbsm_tid = atoi(argv[1]) with no validation and proceeds,
as master exactly when the parsed id is 0. -/
def pbsm_init (argv : List (List Nat)) : init_outcome :=
  if argv.length ≠ 2 then init_outcome.exited (-1)
  else
    let tid := atoi (argv.getD 1 [])
    init_outcome.started tid (decide (tid = 0))

/-- Wrap-around decrement agrees with truncated subtraction on the range
the protocol actually uses. -/
theorem semaphore_dec_eq_sub (c : Nat) (h1 : 1 ≤ c) (h2 : c < 2 ^ 64) :
    semaphore_dec c = c - 1 := by
  unfold semaphore_dec
  have h : c + (2 ^ 64 - 1) = (c - 1) + 2 ^ 64 := by omega
  rw [h, Nat.add_mod_right, Nat.mod_eq_of_lt (by omega)]

/-- Characterisation of the config-reading loop: starting from a counter
below the maximum, it counts min (remaining lines) (remaining capacity)
further nodes, fills in that many entries, and warns exactly when the
file has at least as many lines as the remaining capacity. -/
theorem read_config_count (self : Nat) (l : List Nat) :
    ∀ n, n < MAX_NUMBER_OF_NODES →
    (read_config self l n).1 = n + min l.length (MAX_NUMBER_OF_NODES - n) ∧
    (read_config self l n).2.1.length = min l.length (MAX_NUMBER_OF_NODES - n) ∧
    ((read_config self l n).2.2 = true ↔ MAX_NUMBER_OF_NODES - n ≤ l.length) := by
  induction l with
  | nil =>
    intro n h
    simp only [MAX_NUMBER_OF_NODES] at h ⊢
    simp [read_config]
    omega
  | cons addr rest ih =>
    intro n h
    simp only [MAX_NUMBER_OF_NODES] at h ⊢
    by_cases hmax : n + 1 = 100
    · simp [read_config, MAX_NUMBER_OF_NODES, hmax]
      omega
    · obtain ⟨ih1, ih2, ih3⟩ := ih (n + 1) (by simp only [MAX_NUMBER_OF_NODES]; omega)
      simp only [MAX_NUMBER_OF_NODES] at ih1 ih2 ih3
      simp only [read_config, MAX_NUMBER_OF_NODES, if_neg hmax, List.length_cons]
      refine ⟨by rw [ih1]; omega, by rw [ih2]; omega, by rw [ih3]; omega⟩

/-- Entry j produced by the config-reading loop started at counter n is
built from line j of the remaining file with index n + j, as long as j is
within the remaining capacity. -/
theorem read_config_entry (self : Nat) (l : List Nat) :
    ∀ n j, n < MAX_NUMBER_OF_NODES → j < MAX_NUMBER_OF_NODES - n →
    (read_config self l n).2.1.get? j =
      (l.get? j).map (fun a => make_connection_entry self (n + j) a) := by
  induction l with
  | nil => intro n j h hj; simp [read_config]
  | cons addr rest ih =>
    intro n j h hj
    by_cases hmax : n + 1 = MAX_NUMBER_OF_NODES
    · have hj0 : j = 0 := by omega
      subst hj0
      simp [read_config, if_pos hmax]
    · cases j with
      | zero => simp [read_config, if_neg hmax]
      | succ k =>
        have hrec := ih (n + 1) k (by omega) (by omega)
        simp only [read_config, if_neg hmax, List.get?_cons_succ, hrec,
          Nat.add_succ, Nat.succ_add]

/-- Iterating the invalidation-ack handler: starting from counter k and
processing k acks, every ack lowers the counter by one, the counter ends
at 0, and waiting_invalidate_copies_ is notified exactly by the last
ack. -/
theorem run_invalidate_acks_spec (self N id : Nat) :
    ∀ k, 1 ≤ k → k < 2 ^ 64 → ∀ v : var_data,
    run_invalidate_acks self N id k { v with invalidate_counter_ := k } =
      ({ v with invalidate_counter_ := 0 }, List.replicate (k - 1) false ++ [true]) := by
  intro k
  induction k with
  | zero => omega
  | succ k ih =>
    intro h1 h2 v
    obtain ⟨val, st, ro, ic⟩ := v
    cases k with
    | zero =>
      simp [run_invalidate_acks, receive_step, semaphore_dec_eq_sub 1 (by omega) (by omega)]
    | succ m =>
      have hdec : semaphore_dec (m + 1 + 1) = m + 1 := by
        rw [semaphore_dec_eq_sub (m + 1 + 1) (by omega) (by omega)]
        omega
      have hrec := ih (by omega) (by omega) ⟨val, st, ro, ic⟩
      simp only at hrec
      rw [run_invalidate_acks]
      simp only [receive_step, hdec]
      rw [if_neg (by omega)]
      norm_num
      rw [hrec]
      simp [List.replicate_succ]

/-- Removing one present element from the range list leaves N - 1
elements; this counts the destinations of a broadcast. -/
theorem length_filter_ne_range (N s : Nat) (h : s < N) :
    ((List.range N).filter (fun i => decide (i ≠ s))).length = N - 1 := by
  induction N with
  | zero => omega
  | succ n ih =>
    rw [List.range_succ, List.filter_append, List.length_append]
    by_cases hs : s = n
    · subst hs
      have hall : List.filter (fun i => decide (i ≠ s)) (List.range s) = List.range s := by
        apply List.filter_eq_self.2
        intro i hi
        simp only [List.mem_range] at hi
        simp only [decide_eq_true_iff]
        omega
      rw [hall]
      simp [List.filter_singleton]
    · have h2 : s < n := by omega
      rw [ih h2]
      have hn : List.filter (fun i => decide (i ≠ s)) [n] = [n] := by
        have hd : decide (n = s) = false := decide_eq_false (by omega)
        simp [List.filter_singleton, hd]
      rw [hn]
      simp only [List.length_singleton]
      omega

/-- Claim C1: the claim states that for a variable in a REMOTE state a
call to before_local_write sends exactly one MSG_REQUEST_OWNERSHIP,
addressed to the node recorded in remote_owner_ and to no other node,
blocks on the ownership-grant condition, and assigns the exclusive-owner
state on wake. Evaluating the embedded code at node 1 of 3 nodes on a
variable in REMOTE_OWNER_CACHED with remote_owner_ = 0 shows that the
implementation instead broadcasts the request to every other node
(destinations 0 and 2): send_request_ownership calls send_to_all, against
its own doc comment, which says it sends to the current owner. The
blocking channel and the post-wake state do match the claim. -/
theorem C1_request_ownership_is_broadcast :
    (before_local_write 1 3 7 (some ⟨[], state.REMOTE_OWNER_CACHED, 0, 0⟩)).sent.map Prod.fst
      = [0, 2] ∧
    (before_local_write 1 3 7 (some ⟨[], state.REMOTE_OWNER_CACHED, 0, 0⟩)).sent.length ≠ 1 ∧
    (before_local_write 1 3 7 (some ⟨[], state.REMOTE_OWNER_CACHED, 0, 0⟩)).sent.map
        (fun p => p.2.type) = [msg_type_t.MSG_REQUEST_OWNERSHIP, msg_type_t.MSG_REQUEST_OWNERSHIP] ∧
    (before_local_write 1 3 7 (some ⟨[], state.REMOTE_OWNER_CACHED, 0, 0⟩)).blocked_on
      = some wait_channel.waiting_ownership_grant_ ∧
    (before_local_write 1 3 7 (some ⟨[], state.REMOTE_OWNER_CACHED, 0, 0⟩)).state_after
      = some state.OWNER_NO_SHARED := by
  decide

/-- Claim C2: on MSG_REQUEST_OWNERSHIP from node sender for a registered
variable, an owner (OWNER_NO_SHARED or OWNER_SHARED, the spec's
OWNER_EXCLUSIVE and OWNER_SHARED) moves the record to
REMOTE_OWNER_NO_CACHED (the spec's REMOTE_STALE) with remote_owner_ =
sender and replies MSG_GRANT_OWNERSHIP to sender; a non-owner replies
MSG_SET_NEW_OWNER carrying its own remote_owner_ to sender and changes
nothing, with no other effect in either case. -/
theorem C2_request_ownership_handler (self N id sender : Nat) (v : var_data)
    (t : List (Nat × Nat)) (hs : sender ≠ self) :
    ((v.state_ = state.OWNER_NO_SHARED ∨ v.state_ = state.OWNER_SHARED) →
      receive_step self N ⟨msg_type_t.MSG_REQUEST_OWNERSHIP, id, sender⟩ [] (some v) t =
        ⟨some { v with state_ := state.REMOTE_OWNER_NO_CACHED, remote_owner_ := sender },
         [(sender, ⟨msg_type_t.MSG_GRANT_OWNERSHIP, id, self⟩)], [], [], t, none, false⟩) ∧
    (¬(v.state_ = state.OWNER_NO_SHARED ∨ v.state_ = state.OWNER_SHARED) →
      receive_step self N ⟨msg_type_t.MSG_REQUEST_OWNERSHIP, id, sender⟩ [] (some v) t =
        ⟨some v, [(sender, ⟨msg_type_t.MSG_SET_NEW_OWNER, id, v.remote_owner_⟩)],
         [], [], t, none, false⟩) := by
  constructor
  · intro h
    simp only [receive_step]
    rw [if_pos h]
    simp [send_to, hs]
  · intro h
    simp only [receive_step]
    rw [if_neg h]
    simp [send_to, hs]

/-- Witness for C2 at node 0 of 2 nodes, sender 1, an OWNER_SHARED
record. -/
theorem C2_request_ownership_handler_witness :
    ((1 : Nat) ≠ 0) ∧
    ((((⟨[], state.OWNER_SHARED, 0, 0⟩ : var_data).state_ = state.OWNER_NO_SHARED ∨
       (⟨[], state.OWNER_SHARED, 0, 0⟩ : var_data).state_ = state.OWNER_SHARED) →
      receive_step 0 2 ⟨msg_type_t.MSG_REQUEST_OWNERSHIP, 5, 1⟩ []
          (some ⟨[], state.OWNER_SHARED, 0, 0⟩) [] =
        ⟨some { (⟨[], state.OWNER_SHARED, 0, 0⟩ : var_data) with
                  state_ := state.REMOTE_OWNER_NO_CACHED, remote_owner_ := 1 },
         [(1, ⟨msg_type_t.MSG_GRANT_OWNERSHIP, 5, 0⟩)], [], [], [], none, false⟩) ∧
     (¬((⟨[], state.OWNER_SHARED, 0, 0⟩ : var_data).state_ = state.OWNER_NO_SHARED ∨
        (⟨[], state.OWNER_SHARED, 0, 0⟩ : var_data).state_ = state.OWNER_SHARED) →
      receive_step 0 2 ⟨msg_type_t.MSG_REQUEST_OWNERSHIP, 5, 1⟩ []
          (some ⟨[], state.OWNER_SHARED, 0, 0⟩) [] =
        ⟨some ⟨[], state.OWNER_SHARED, 0, 0⟩,
         [(1, ⟨msg_type_t.MSG_SET_NEW_OWNER, 5,
               (⟨[], state.OWNER_SHARED, 0, 0⟩ : var_data).remote_owner_⟩)],
         [], [], [], none, false⟩)) :=
  ⟨by decide, C2_request_ownership_handler 0 2 5 1 ⟨[], state.OWNER_SHARED, 0, 0⟩ [] (by decide)⟩

/-- Claim C3: for a variable in OWNER_SHARED, before_local_write
broadcasts MSG_INVALIDATE_COPY to all N - 1 other nodes, sets the
invalidation counter to N - 1, blocks on waiting_invalidate_copies_, and
assigns OWNER_NO_SHARED (the spec's OWNER_EXCLUSIVE) on wake; iterating
the MSG_INVALIDATE_COPY_ACK handler over the N - 1 acknowledgements
lowers the counter by one per ack, ends at zero, and notifies
waiting_invalidate_copies_ exactly on the last acknowledgement. -/
theorem C3_owner_shared_write_invalidations (self N id : Nat) (v : var_data)
    (hN : 2 ≤ N) (hN64 : N < 2 ^ 64) (hself : self < N)
    (hst : v.state_ = state.OWNER_SHARED) :
    (before_local_write self N id (some v)).sent =
      ((List.range N).filter (fun i => decide (i ≠ self))).map
        (fun d => (d, ⟨msg_type_t.MSG_INVALIDATE_COPY, id, self⟩)) ∧
    (before_local_write self N id (some v)).sent.length = N - 1 ∧
    (before_local_write self N id (some v)).counter_set = some (N - 1) ∧
    (before_local_write self N id (some v)).blocked_on =
      some wait_channel.waiting_invalidate_copies_ ∧
    (before_local_write self N id (some v)).state_after = some state.OWNER_NO_SHARED ∧
    run_invalidate_acks self N id (N - 1) { v with invalidate_counter_ := N - 1 } =
      ({ v with invalidate_counter_ := 0 }, List.replicate (N - 2) false ++ [true]) := by
  have hb : before_local_write self N id (some v) =
      ⟨send_to_all self N ⟨msg_type_t.MSG_INVALIDATE_COPY, id, self⟩,
       some wait_channel.waiting_invalidate_copies_, some (N - 1),
       some state.OWNER_NO_SHARED, true⟩ := by
    simp only [before_local_write]
    rw [if_neg (by simp [hst]), if_pos hst]
  have hrun := run_invalidate_acks_spec self N id (N - 1) (by omega) (by omega) v
  have hsub : N - 1 - 1 = N - 2 := by omega
  rw [hsub] at hrun
  refine ⟨by rw [hb]; simp [send_to_all], ?_, by rw [hb], by rw [hb], by rw [hb], hrun⟩
  rw [hb]
  simp only [send_to_all, List.length_map]
  exact length_filter_ne_range N self hself

/-- Witness for C3 at node 0 of 2 nodes on an OWNER_SHARED record. -/
theorem C3_owner_shared_write_invalidations_witness :
    ((2 : Nat) ≤ 2 ∧ (2 : Nat) < 2 ^ 64 ∧ (0 : Nat) < 2 ∧
     (⟨[], state.OWNER_SHARED, 0, 0⟩ : var_data).state_ = state.OWNER_SHARED) ∧
    ((before_local_write 0 2 9 (some ⟨[], state.OWNER_SHARED, 0, 0⟩)).sent =
      ((List.range 2).filter (fun i => decide (i ≠ 0))).map
        (fun d => (d, ⟨msg_type_t.MSG_INVALIDATE_COPY, 9, 0⟩)) ∧
     (before_local_write 0 2 9 (some ⟨[], state.OWNER_SHARED, 0, 0⟩)).sent.length = 2 - 1 ∧
     (before_local_write 0 2 9 (some ⟨[], state.OWNER_SHARED, 0, 0⟩)).counter_set =
       some (2 - 1) ∧
     (before_local_write 0 2 9 (some ⟨[], state.OWNER_SHARED, 0, 0⟩)).blocked_on =
       some wait_channel.waiting_invalidate_copies_ ∧
     (before_local_write 0 2 9 (some ⟨[], state.OWNER_SHARED, 0, 0⟩)).state_after =
       some state.OWNER_NO_SHARED ∧
     run_invalidate_acks 0 2 9 (2 - 1)
         { (⟨[], state.OWNER_SHARED, 0, 0⟩ : var_data) with invalidate_counter_ := 2 - 1 } =
       ({ (⟨[], state.OWNER_SHARED, 0, 0⟩ : var_data) with invalidate_counter_ := 0 },
        List.replicate (2 - 2) false ++ [true])) :=
  ⟨⟨by decide, by decide, by decide, by decide⟩,
   C3_owner_shared_write_invalidations 0 2 9 ⟨[], state.OWNER_SHARED, 0, 0⟩
     (by decide) (by decide) (by decide) (by decide)⟩

/-- Claim C4, counterexample: the claim states that the MSG_SET_NEW_VALUE
handler sets the variable's state to REMOTE_CACHED. Running the embedded
handler on a registered variable in REMOTE_OWNER_NO_CACHED leaves the
state at REMOTE_OWNER_NO_CACHED: the source handler only stores the bytes
and signals; the state assignment happens in the woken reader. -/
theorem C4_state_not_set_by_handler :
    (receive_step 1 2 ⟨msg_type_t.MSG_SET_NEW_VALUE, 9, 1⟩ [7]
        (some ⟨[0], state.REMOTE_OWNER_NO_CACHED, 0, 0⟩) []).reg_after.map var_data.state_ =
      some state.REMOTE_OWNER_NO_CACHED ∧
    some state.REMOTE_OWNER_NO_CACHED ≠ some state.REMOTE_OWNER_CACHED := by
  decide

/-- Claim C4 as amended: for every incoming MSG_SET_NEW_VALUE about a
registered variable, the handler writes the payload bytes into the value
slot and signals wait_value_updated_ (the spec's await_value), sending
nothing and leaving state_ and remote_owner_ unchanged; the transition to
REMOTE_OWNER_CACHED (the spec's REMOTE_CACHED) is performed by the reader
blocked in before_local_read when it wakes on that signal. -/
theorem C4_set_new_value_handler (self N id : Nat) (payload : List Nat) (v : var_data)
    (t : List (Nat × Nat)) :
    receive_step self N ⟨msg_type_t.MSG_SET_NEW_VALUE, id, payload.length⟩ payload (some v) t =
      ⟨some { v with value_ := payload }, [], [],
       [wait_channel.wait_value_updated_], t, none, false⟩ ∧
    (v.state_ = state.REMOTE_OWNER_NO_CACHED →
      (before_local_read self id (some v)).blocked_on = some wait_channel.wait_value_updated_ ∧
      (before_local_read self id (some v)).state_after = some state.REMOTE_OWNER_CACHED) := by
  constructor
  · simp [receive_step]
  · intro h
    simp [before_local_read, h]

/-- Witness for C4 on a stale record receiving payload byte 7. -/
theorem C4_set_new_value_handler_witness :
    (receive_step 1 2 ⟨msg_type_t.MSG_SET_NEW_VALUE, 9, [(7 : Nat)].length⟩ [7]
        (some ⟨[0], state.REMOTE_OWNER_NO_CACHED, 0, 0⟩) [] =
      ⟨some { (⟨[0], state.REMOTE_OWNER_NO_CACHED, 0, 0⟩ : var_data) with value_ := [7] },
       [], [], [wait_channel.wait_value_updated_], [], none, false⟩) ∧
    ((⟨[0], state.REMOTE_OWNER_NO_CACHED, 0, 0⟩ : var_data).state_ =
        state.REMOTE_OWNER_NO_CACHED ∧
     ((before_local_read 1 9 (some ⟨[0], state.REMOTE_OWNER_NO_CACHED, 0, 0⟩)).blocked_on =
        some wait_channel.wait_value_updated_ ∧
      (before_local_read 1 9 (some ⟨[0], state.REMOTE_OWNER_NO_CACHED, 0, 0⟩)).state_after =
        some state.REMOTE_OWNER_CACHED)) :=
  ⟨(C4_set_new_value_handler 1 2 9 [7] ⟨[0], state.REMOTE_OWNER_NO_CACHED, 0, 0⟩ []).1,
   by decide,
   (C4_set_new_value_handler 1 2 9 [7] ⟨[0], state.REMOTE_OWNER_NO_CACHED, 0, 0⟩ []).2
     (by decide)⟩

/-- Claim C5: the master entering barrier s looks up or lazily creates
the entry for s with initial counter N, decrements it, waits on the
entry's condition exactly when the counter is still positive, deletes the
entry, and broadcasts MSG_BARRIER_UNBLOCK(s) to all slaves (every node
other than 0); the MSG_BARRIER_BLOCK handler performs the same
look-up-or-create-and-decrement on the table, notifies the entry's
condition when the counter reaches zero, and neither broadcasts nor
blocks. -/
theorem C5_barrier_master_and_handler (N s : Nat) (table : List (Nat × Nat))
    (reg : Option var_data)
    (h1 : 1 ≤ (table.lookup s).getD N) (h64 : (table.lookup s).getD N < 2 ^ 64) :
    thread_wait_master_barrier N table s =
      ⟨((List.range N).filter (fun i => decide (i ≠ 0))).map
         (fun d => (d, ⟨msg_type_t.MSG_BARRIER_UNBLOCK, s, 0⟩)),
       decide (0 < (table.lookup s).getD N - 1),
       table.filter (fun p => decide (p.1 ≠ s))⟩ ∧
    receive_step 0 N ⟨msg_type_t.MSG_BARRIER_BLOCK, s, 0⟩ [] reg table =
      ⟨reg, [], [],
       (if (table.lookup s).getD N - 1 = 0 then [wait_channel.wait_condition_ s] else []),
       (s, (table.lookup s).getD N - 1) :: table.filter (fun p => decide (p.1 ≠ s)),
       none, false⟩ := by
  have hd := semaphore_dec_eq_sub _ h1 h64
  constructor
  · simp only [thread_wait_master_barrier, send_to_all, hd]
  · simp only [receive_step, hd]
    simp

/-- Witness for C5 with 2 nodes, barrier id 4 and an empty table, where
the lazily created counter is N = 2. -/
theorem C5_barrier_master_and_handler_witness :
    ((1 : Nat) ≤ ((([] : List (Nat × Nat)).lookup 4).getD 2) ∧
     ((([] : List (Nat × Nat)).lookup 4).getD 2) < 2 ^ 64) ∧
    (thread_wait_master_barrier 2 [] 4 =
      ⟨((List.range 2).filter (fun i => decide (i ≠ 0))).map
         (fun d => (d, ⟨msg_type_t.MSG_BARRIER_UNBLOCK, 4, 0⟩)),
       decide (0 < ((([] : List (Nat × Nat)).lookup 4).getD 2) - 1),
       ([] : List (Nat × Nat)).filter (fun p => decide (p.1 ≠ 4))⟩ ∧
     receive_step 0 2 ⟨msg_type_t.MSG_BARRIER_BLOCK, 4, 0⟩ [] none [] =
      ⟨none, [], [],
       (if ((([] : List (Nat × Nat)).lookup 4).getD 2) - 1 = 0
        then [wait_channel.wait_condition_ 4] else []),
       (4, ((([] : List (Nat × Nat)).lookup 4).getD 2) - 1) ::
         ([] : List (Nat × Nat)).filter (fun p => decide (p.1 ≠ 4)),
       none, false⟩) :=
  ⟨⟨by decide, by decide⟩,
   C5_barrier_master_and_handler 2 4 [] none (by decide) (by decide)⟩

/-- Claim C6, counterexample: the claim states that every coherence
message with an unregistered variable id is dropped with no reply,
including MSG_INVALIDATE_COPY. In the embedded handler the
MSG_INVALIDATE_COPY acknowledgement is sent outside the registry check,
so node 1 receiving MSG_INVALIDATE_COPY from node 0 for unknown variable
9 still replies MSG_INVALIDATE_COPY_ACK. -/
theorem C6_invalidate_copy_acks_unknown :
    (receive_step 1 3 ⟨msg_type_t.MSG_INVALIDATE_COPY, 9, 0⟩ [] none []).sent =
      [(0, ⟨msg_type_t.MSG_INVALIDATE_COPY_ACK, 9, 1⟩)] ∧
    (receive_step 1 3 ⟨msg_type_t.MSG_INVALIDATE_COPY, 9, 0⟩ [] none []).sent ≠ [] ∧
    (receive_step 1 3 ⟨msg_type_t.MSG_INVALIDATE_COPY, 9, 0⟩ [] none []).logged_error
      = false := by
  decide

/-- Claim C6 as amended: for every incoming variable-coherence message
whose id is not in the registry, the handler performs no state change, no
signal and no table change; for every such type except
MSG_INVALIDATE_COPY it also sends nothing (MSG_INVALIDATE_COPY still
replies MSG_INVALIDATE_COPY_ACK), and only MSG_GRANT_OWNERSHIP,
MSG_ASK_CURRENT_VALUE and MSG_SET_NEW_VALUE log an error, the rest drop
silently. -/
theorem C6_unknown_variable_dropped (self N : Nat) (m : msg_t) (payload : List Nat)
    (t : List (Nat × Nat))
    (hty : m.type = msg_type_t.MSG_REQUEST_OWNERSHIP ∨ m.type = msg_type_t.MSG_GRANT_OWNERSHIP ∨
           m.type = msg_type_t.MSG_SET_NEW_OWNER ∨ m.type = msg_type_t.MSG_ASK_CURRENT_VALUE ∨
           m.type = msg_type_t.MSG_SET_NEW_VALUE ∨ m.type = msg_type_t.MSG_INVALIDATE_COPY_ACK) :
    (receive_step self N m payload none t).reg_after = none ∧
    (receive_step self N m payload none t).sent = [] ∧
    (receive_step self N m payload none t).sent_value = [] ∧
    (receive_step self N m payload none t).signaled = [] ∧
    (receive_step self N m payload none t).table_after = t ∧
    ((receive_step self N m payload none t).logged_error = true ↔
      (m.type = msg_type_t.MSG_GRANT_OWNERSHIP ∨ m.type = msg_type_t.MSG_ASK_CURRENT_VALUE ∨
       m.type = msg_type_t.MSG_SET_NEW_VALUE)) := by
  obtain ⟨ty, id, data⟩ := m
  rcases hty with h | h | h | h | h | h <;>
    (simp only [msg_t.type] at h; subst h) <;> simp [receive_step]

/-- Witness for C6 on MSG_REQUEST_OWNERSHIP for an unknown variable. -/
theorem C6_unknown_variable_dropped_witness :
    ((⟨msg_type_t.MSG_REQUEST_OWNERSHIP, 9, 0⟩ : msg_t).type =
        msg_type_t.MSG_REQUEST_OWNERSHIP ∨
     (⟨msg_type_t.MSG_REQUEST_OWNERSHIP, 9, 0⟩ : msg_t).type =
        msg_type_t.MSG_GRANT_OWNERSHIP ∨
     (⟨msg_type_t.MSG_REQUEST_OWNERSHIP, 9, 0⟩ : msg_t).type =
        msg_type_t.MSG_SET_NEW_OWNER ∨
     (⟨msg_type_t.MSG_REQUEST_OWNERSHIP, 9, 0⟩ : msg_t).type =
        msg_type_t.MSG_ASK_CURRENT_VALUE ∨
     (⟨msg_type_t.MSG_REQUEST_OWNERSHIP, 9, 0⟩ : msg_t).type =
        msg_type_t.MSG_SET_NEW_VALUE ∨
     (⟨msg_type_t.MSG_REQUEST_OWNERSHIP, 9, 0⟩ : msg_t).type =
        msg_type_t.MSG_INVALIDATE_COPY_ACK) ∧
    ((receive_step 1 3 ⟨msg_type_t.MSG_REQUEST_OWNERSHIP, 9, 0⟩ [] none []).reg_after = none ∧
     (receive_step 1 3 ⟨msg_type_t.MSG_REQUEST_OWNERSHIP, 9, 0⟩ [] none []).sent = [] ∧
     (receive_step 1 3 ⟨msg_type_t.MSG_REQUEST_OWNERSHIP, 9, 0⟩ [] none []).sent_value = [] ∧
     (receive_step 1 3 ⟨msg_type_t.MSG_REQUEST_OWNERSHIP, 9, 0⟩ [] none []).signaled = [] ∧
     (receive_step 1 3 ⟨msg_type_t.MSG_REQUEST_OWNERSHIP, 9, 0⟩ [] none []).table_after = [] ∧
     ((receive_step 1 3 ⟨msg_type_t.MSG_REQUEST_OWNERSHIP, 9, 0⟩ [] none []).logged_error = true ↔
       ((⟨msg_type_t.MSG_REQUEST_OWNERSHIP, 9, 0⟩ : msg_t).type =
           msg_type_t.MSG_GRANT_OWNERSHIP ∨
        (⟨msg_type_t.MSG_REQUEST_OWNERSHIP, 9, 0⟩ : msg_t).type =
           msg_type_t.MSG_ASK_CURRENT_VALUE ∨
        (⟨msg_type_t.MSG_REQUEST_OWNERSHIP, 9, 0⟩ : msg_t).type =
           msg_type_t.MSG_SET_NEW_VALUE))) :=
  ⟨by decide,
   C6_unknown_variable_dropped 1 3 ⟨msg_type_t.MSG_REQUEST_OWNERSHIP, 9, 0⟩ [] [] (by decide)⟩

/-- Claim C7: before_local_read on a variable whose state is not
REMOTE_OWNER_NO_CACHED (the spec's REMOTE_STALE) sends nothing, blocks on
nothing and performs no state assignment, so two back-to-back reads of an
already-cached value cause no network traffic. -/
theorem C7_before_local_read_idempotent (self id : Nat) (v : var_data)
    (h : v.state_ ≠ state.REMOTE_OWNER_NO_CACHED) :
    before_local_read self id (some v) = ⟨[], none, none⟩ := by
  simp [before_local_read, h]

/-- Witness for C7 on a REMOTE_OWNER_CACHED record, the state a variable
holds right after a completed remote read. -/
theorem C7_before_local_read_idempotent_witness :
    ((⟨[3], state.REMOTE_OWNER_CACHED, 0, 0⟩ : var_data).state_ ≠
      state.REMOTE_OWNER_NO_CACHED) ∧
    before_local_read 1 9 (some ⟨[3], state.REMOTE_OWNER_CACHED, 0, 0⟩) = ⟨[], none, none⟩ :=
  ⟨by decide,
   C7_before_local_read_idempotent 1 9 ⟨[3], state.REMOTE_OWNER_CACHED, 0, 0⟩ (by decide)⟩

/-- Claim C8, counterexample: the claim states that node i listens for
node j's messages on port P + i and that the connection i to j targets
port P + j. On node 1 with a three-line config, the receive socket for
node 2 is bound to port 2002 (P + 2, not P + 1), and the send socket for
node 2 is connected to port 2001 (P + 1, not P + 2): the code keys both
ports of a channel by the sender's id. -/
theorem C8_ports_differ_from_claim :
    ((communication_handler_init 1 [10, 11, 12]).2.1.get? 2).map start_recv_server =
      some 2002 ∧
    some (2002 : Nat) ≠ some (network_port_offset + 1) ∧
    ((communication_handler_init 1 [10, 11, 12]).2.1.get? 2).map
        (fun c => (start_send_client c).2) = some 2001 ∧
    some (2001 : Nat) ≠ some (network_port_offset + 2) := by
  decide

/-- Claim C8 as amended: with base port P = network_port_offset = 2000,
node i binds the receive socket of its entry for node j to port P + j
(so i listens for j's messages on P + j), and connects the send socket of
that entry to port P + i, which is exactly the port node j listens on for
i's messages; both ports of the channel i to j are keyed by the sender i.
The destination address of the send socket is left 0 (0.0.0.0) by the
source's reversed memcpy, so the configured peer address is not used. -/
theorem C8_port_scheme (i j : Nat) (config : List Nat)
    (hj : j < config.length) (hi : i < config.length)
    (hj100 : j < MAX_NUMBER_OF_NODES) (hi100 : i < MAX_NUMBER_OF_NODES) :
    ((communication_handler_init i config).2.1.get? j).map start_recv_server =
      some (network_port_offset + j) ∧
    ((communication_handler_init i config).2.1.get? j).map
        (fun c => (start_send_client c).2) = some (network_port_offset + i) ∧
    ((communication_handler_init i config).2.1.get? j).map
        (fun c => (start_send_client c).1) = some 0 ∧
    ((communication_handler_init i config).2.1.get? j).map
        (fun c => (start_send_client c).2) =
      ((communication_handler_init j config).2.1.get? i).map start_recv_server := by
  have e1 := read_config_entry i config 0 j (by decide) (by omega)
  have e2 := read_config_entry j config 0 i (by decide) (by omega)
  simp only [communication_handler_init]
  rw [e1, e2]
  cases hcj : config.get? j with
  | none =>
    rw [List.get?_eq_none] at hcj
    omega
  | some a =>
    cases hci : config.get? i with
    | none =>
      rw [List.get?_eq_none] at hci
      omega
    | some b =>
      simp [make_connection_entry, start_recv_server, start_send_client]

/-- Witness for C8 at nodes 1 and 2 with a three-line config. -/
theorem C8_port_scheme_witness :
    ((2 : Nat) < ([10, 11, 12] : List Nat).length ∧
     (1 : Nat) < ([10, 11, 12] : List Nat).length ∧
     (2 : Nat) < MAX_NUMBER_OF_NODES ∧ (1 : Nat) < MAX_NUMBER_OF_NODES) ∧
    (((communication_handler_init 1 [10, 11, 12]).2.1.get? 2).map start_recv_server =
       some (network_port_offset + 2) ∧
     ((communication_handler_init 1 [10, 11, 12]).2.1.get? 2).map
         (fun c => (start_send_client c).2) = some (network_port_offset + 1) ∧
     ((communication_handler_init 1 [10, 11, 12]).2.1.get? 2).map
         (fun c => (start_send_client c).1) = some 0 ∧
     ((communication_handler_init 1 [10, 11, 12]).2.1.get? 2).map
         (fun c => (start_send_client c).2) =
       ((communication_handler_init 2 [10, 11, 12]).2.1.get? 1).map start_recv_server) :=
  ⟨⟨by decide, by decide, by decide, by decide⟩,
   C8_port_scheme 1 2 [10, 11, 12] (by decide) (by decide) (by decide) (by decide)⟩

/-- Claim C9, counterexample: the claim states that startup exits
non-zero whenever the node-id argument is missing or invalid, so that no
invocation with an argument outside [0, N-1] proceeds. Evaluating the
embedded pbsm_init on the argument vector (program name, "5") shows
startup proceeds with pbsm_tid = 5 and does not exit, although 5 is not a
valid node id for, e.g., a two-node deployment (5 is not less than 2):
the source only checks argc and never validates the parsed id. -/
theorem C9_invalid_id_starts_anyway :
    pbsm_init [[112], [53]] = init_outcome.started 5 false ∧
    pbsm_init [[112], [53]] ≠ init_outcome.exited (-1) ∧
    ¬((5 : Int) < 2) := by
  decide

/-- Claim C9 as amended: pbsm_init exits with code -1 exactly when the
argument count differs from 2 (missing or surplus arguments); whenever
exactly one argument is present, startup proceeds unconditionally with
pbsm_tid = atoi(argv[1]), master exactly when that value is 0, with no
range or syntax validation of the argument. -/
theorem C9_exit_iff_wrong_argc (argv : List (List Nat)) :
    (pbsm_init argv = init_outcome.exited (-1) ↔ argv.length ≠ 2) ∧
    (argv.length = 2 →
      pbsm_init argv =
        init_outcome.started (atoi (argv.getD 1 []))
          (decide (atoi (argv.getD 1 []) = 0))) := by
  by_cases h : argv.length = 2 <;> simp [pbsm_init, h]

/-- Witness for C9 on the argument vector (program name, "5"). -/
theorem C9_exit_iff_wrong_argc_witness :
    (([[112], [53]] : List (List Nat)).length = 2) ∧
    pbsm_init [[112], [53]] =
      init_outcome.started (atoi (([[112], [53]] : List (List Nat)).getD 1 []))
        (decide (atoi (([[112], [53]] : List (List Nat)).getD 1 []) = 0)) :=
  ⟨by decide, (C9_exit_iff_wrong_argc [[112], [53]]).2 (by decide)⟩

/-- Claim C10: the membership loader reads at most MAX_NUMBER_OF_NODES =
100 addresses; the node count is the minimum of the line count and 100,
and a config file with more than 100 lines yields exactly 100 connection
entries with the warning flag raised, the remaining lines being
ignored. -/
theorem C10_config_capped_at_100 (self : Nat) (config : List Nat) :
    (communication_handler_init self config).1 = min config.length 100 ∧
    (communication_handler_init self config).1 ≤ 100 ∧
    (100 < config.length →
      (communication_handler_init self config).1 = 100 ∧
      (communication_handler_init self config).2.1.length = 100 ∧
      (communication_handler_init self config).2.2 = true) := by
  obtain ⟨h1, h2, h3⟩ := read_config_count self config 0 (by decide)
  simp only [MAX_NUMBER_OF_NODES] at h1 h2 h3
  simp only [communication_handler_init]
  refine ⟨by rw [h1]; omega, by rw [h1]; omega,
    fun hlen => ⟨by rw [h1]; omega, by rw [h2]; omega, by rw [h3]; omega⟩⟩

/-- Witness for C10 on a 101-line config file. -/
theorem C10_config_capped_at_100_witness :
    (100 < (List.replicate 101 (0 : Nat)).length) ∧
    ((communication_handler_init 0 (List.replicate 101 (0 : Nat))).1 = 100 ∧
     (communication_handler_init 0 (List.replicate 101 (0 : Nat))).2.1.length = 100 ∧
     (communication_handler_init 0 (List.replicate 101 (0 : Nat))).2.2 = true) :=
  ⟨by simp, (C10_config_capped_at_100 0 (List.replicate 101 (0 : Nat))).2.2 (by simp)⟩

end PBSM
